import Mathlib

/-!
Shallow embedding of `kodecraft-mark/leptos_reqwest` (src/lib.rs).

The library exposes two async functions, `send_and_parse` and `send`, that
build an HTTP request from a method selector, an optional payload, a url and
headers, perform the network round trip, and map the response (status plus
body text) into either a deserialized success value or a caller-supplied
error type.

Embedding choices:
* The generic Rust type parameters become Lean type parameters:
  `τ` (request payload `T`), `υ` (success `U`), `ε` (error `E`),
  `σ` (leptos `SerializationError`), `ρ` (reqwest `Error` from reading the
  body), `κ` (the `serde_urlencoded` encoding error), `χ` (the transport
  failure cause, discarded by the code), `η` (the header map).
* The trait `LeptosReqwestError` (plus the `Serializable::de` method of the
  error type) becomes an explicit dictionary structure.
* The serializers/deserializers and the network transport are parameters:
  `to_query_string` is `serde_urlencoded::to_string`, `to_json` is the JSON
  body encoding of `.json(&...)`, `de_u` is `U::de`, and `transport` maps the
  fully built request to the transport outcome (`Result<Response, Error>`).
* A reqwest `Response` is its status code (as a `Nat`) together with the
  outcome of `.text()`.
* `request.unwrap()` on `None` panics in Rust; the embedded functions return
  in an `Outcome` type whose `panics` constructor records exactly that.
-/

/-- Enum representing the four method selectors of src/lib.rs (`HttpMethod`). -/
inductive HttpMethod where
  | Get
  | Post
  | Put
  | Delete
  deriving DecidableEq, Repr

/-- The HTTP verb actually placed on the wire by the reqwest client calls
(`client.get`, `client.post`, `client.patch`, `client.delete`).  Note the
code never calls `client.put`: the `Put` selector is sent as `PATCH`. -/
inductive Verb where
  | GET
  | POST
  | PUT
  | PATCH
  | DELETE
  deriving DecidableEq, Repr

/-- A transport-level response: the HTTP status code and the result of
reading the body as text (`res.text().await`), which may fail with a
reqwest error of type `ρ`. -/
structure Response (ρ : Type) where
  status : Nat
  text : Except ρ String
  deriving Repr

/-- The outgoing request handed to the underlying client: verb, final url
(including any appended query string), headers, and the optional
JSON-encoded body. -/
structure BuiltRequest (η : Type) where
  verb : Verb
  url : String
  headers : η
  body : Option String
  deriving Repr

/-- Dictionary for the trait `LeptosReqwestError: Default + Serializable`:
the two fallback constructors, the `Default::default` value, and the
`Serializable::de` deserializer of the error type itself. -/
structure LeptosReqwestError (σ ρ ε : Type) where
  deserialization_error : σ → ε
  read_error : ρ → ε
  default : ε
  de : String → Except σ ε

/-- Rust `Result` plus the possibility of a panic: `request.unwrap()` on a
`None` payload aborts the call instead of returning. -/
inductive Outcome (ε α : Type) where
  | panics
  | returns (r : Except ε α)
  deriving Repr

/-- The request-building phase shared verbatim by `send_and_parse`
(src/lib.rs lines 59-97) and `send` (lines 160-198).  `Get` appends the
url-encoded payload as a query string when encoding succeeds and silently
falls back to the bare url otherwise; `Post`/`Put`/`Delete` JSON-encode
`request.unwrap()`, which panics (`none`) when the payload is absent.  The
`Put` selector uses `client.patch`. -/
def buildRequest {τ κ η : Type} (to_query_string : τ → Except κ String)
    (to_json : τ → String) (request : Option τ) (url : String) (headers : η)
    (method : HttpMethod) : Option (BuiltRequest η) :=
  match method with
  | .Get =>
      let path :=
        match request with
        | some req =>
            match to_query_string req with
            | .ok query_string => url ++ "?" ++ query_string
            | .error _ => url
        | none => url
      some ⟨.GET, path, headers, none⟩
  | .Post =>
      match request with
      | some req => some ⟨.POST, url, headers, some (to_json req)⟩
      | none => none
  | .Put =>
      match request with
      | some req => some ⟨.PATCH, url, headers, some (to_json req)⟩
      | none => none
  | .Delete =>
      match request with
      | some req => some ⟨.DELETE, url, headers, some (to_json req)⟩
      | none => none

/-- Response handling of `send_and_parse` (src/lib.rs lines 99-128): on a
transport error the default error value; on status exactly 200 read the
text (read failure mapped through `read_error`) and deserialize into the
success type (failure mapped through `deserialization_error`); on any other
status read the text and deserialize into the error type itself, with the
same fallbacks. -/
def handleParseResponse {υ ε σ ρ χ : Type} (de_u : String → Except σ υ)
    (err : LeptosReqwestError σ ρ ε) (response : Except χ (Response ρ)) :
    Except ε υ :=
  match response with
  | .ok res =>
      if res.status = 200 then
        match res.text with
        | .ok text =>
            match de_u text with
            | .ok result => .ok result
            | .error e => .error (err.deserialization_error e)
        | .error e => .error (err.read_error e)
      else
        match res.text with
        | .ok text =>
            match err.de text with
            | .ok error_result => .error error_result
            | .error e => .error (err.deserialization_error e)
        | .error e => .error (err.read_error e)
  | .error _ => .error err.default

/-- Response handling of `send` (src/lib.rs lines 199-216): on a transport
error the default error value; on any 2xx status (`res.status().is_success()`,
i.e. `200 ≤ code < 300`) the value `true` without touching the body; on any
other status the identical error-deserialization chain as
`handleParseResponse`. -/
def handleBoolResponse {ε σ ρ χ : Type} (err : LeptosReqwestError σ ρ ε)
    (response : Except χ (Response ρ)) : Except ε Bool :=
  match response with
  | .ok res =>
      if 200 ≤ res.status ∧ res.status < 300 then
        .ok true
      else
        match res.text with
        | .ok text =>
            match err.de text with
            | .ok error_result => .error error_result
            | .error e => .error (err.deserialization_error e)
        | .error e => .error (err.read_error e)
  | .error _ => .error err.default

/-- `pub async fn send_and_parse<T, U, E>` (src/lib.rs lines 47-129): build
the request from the method selector (panicking on an absent payload for
`Post`/`Put`/`Delete`), run the transport, and handle the response with the
200/other-status deserialization chain. -/
def send_and_parse {τ υ ε σ ρ κ χ η : Type}
    (transport : BuiltRequest η → Except χ (Response ρ))
    (to_query_string : τ → Except κ String) (to_json : τ → String)
    (de_u : String → Except σ υ) (err : LeptosReqwestError σ ρ ε)
    (request : Option τ) (url : String) (headers : η)
    (method : HttpMethod) : Outcome ε υ :=
  match buildRequest to_query_string to_json request url headers method with
  | none => .panics
  | some req => .returns (handleParseResponse de_u err (transport req))

/-- `pub async fn send<T, E>` (src/lib.rs lines 149-217): the same request
building, then the boolean 2xx/other-status handling. -/
def send {τ ε σ ρ κ χ η : Type}
    (transport : BuiltRequest η → Except χ (Response ρ))
    (to_query_string : τ → Except κ String) (to_json : τ → String)
    (err : LeptosReqwestError σ ρ ε)
    (request : Option τ) (url : String) (headers : η)
    (method : HttpMethod) : Outcome ε Bool :=
  match buildRequest to_query_string to_json request url headers method with
  | none => .panics
  | some req => .returns (handleBoolResponse err (transport req))

/-- The error value produced by the shared non-success deserialization
chain (src/lib.rs lines 115-124 and 204-212): deserialize the body text
into the error type, fall back to `deserialization_error`, and map a text
read failure to `read_error`. -/
def errorChain {ε σ ρ : Type} (err : LeptosReqwestError σ ρ ε)
    (res : Response ρ) : ε :=
  match res.text with
  | .ok text =>
      match err.de text with
      | .ok error_result => error_result
      | .error e => err.deserialization_error e
  | .error e => err.read_error e

/-- C1: for every call to `send_and_parse`, if the transport succeeds with
status exactly 200 and the response body text deserializes into the success
type, the function returns `Ok` of that deserialized value. -/
theorem send_and_parse_status200_ok {τ υ ε σ ρ κ χ η : Type}
    (transport : BuiltRequest η → Except χ (Response ρ))
    (tq : τ → Except κ String) (tj : τ → String)
    (de_u : String → Except σ υ) (err : LeptosReqwestError σ ρ ε)
    (request : Option τ) (url : String) (headers : η) (method : HttpMethod)
    (req : BuiltRequest η) (t : String) (v : υ)
    (hb : buildRequest tq tj request url headers method = some req)
    (ht : transport req = .ok ⟨200, .ok t⟩)
    (hv : de_u t = .ok v) :
    send_and_parse transport tq tj de_u err request url headers method =
      .returns (.ok v) := by
  simp [send_and_parse, hb, handleParseResponse, ht, hv]

theorem send_and_parse_status200_ok_witness :
    send_and_parse
      (fun _ : BuiltRequest Nat =>
        (Except.ok ⟨200, Except.ok "body"⟩ : Except Nat (Response Nat)))
      (fun _ : Nat => (Except.ok "q" : Except Nat String)) (fun _ => "j")
      (fun _ => (Except.ok 7 : Except Nat Nat))
      ⟨fun e => e + 100, fun e => e + 200, 999, fun _ => Except.error 0⟩
      none "http://x" 0 HttpMethod.Get = Outcome.returns (Except.ok 7) :=
  send_and_parse_status200_ok _ _ _ _ _ _ _ _ _
    ⟨Verb.GET, "http://x", 0, none⟩ "body" 7 rfl rfl rfl

/-- C2: for every call to `send_and_parse`, if the transport succeeds with a
non-200 status and the body text is read, then: if the text deserializes
into the error type the result is `Err` of that value (never `Ok`), and if
that deserialization fails the result is `Err` of the deserialization-error
constructor applied to the failure. -/
theorem send_and_parse_non200_err {τ υ ε σ ρ κ χ η : Type}
    (transport : BuiltRequest η → Except χ (Response ρ))
    (tq : τ → Except κ String) (tj : τ → String)
    (de_u : String → Except σ υ) (err : LeptosReqwestError σ ρ ε)
    (request : Option τ) (url : String) (headers : η) (method : HttpMethod)
    (req : BuiltRequest η) (res : Response ρ) (t : String)
    (hb : buildRequest tq tj request url headers method = some req)
    (ht : transport req = .ok res)
    (hs : res.status ≠ 200)
    (htx : res.text = .ok t) :
    (∀ ev, err.de t = .ok ev →
      send_and_parse transport tq tj de_u err request url headers method =
        .returns (.error ev)) ∧
    (∀ k, err.de t = .error k →
      send_and_parse transport tq tj de_u err request url headers method =
        .returns (.error (err.deserialization_error k))) := by
  constructor
  · intro ev hde
    simp [send_and_parse, hb, handleParseResponse, ht, hs, htx, hde]
  · intro k hde
    simp [send_and_parse, hb, handleParseResponse, ht, hs, htx, hde]

theorem send_and_parse_non200_err_witness :
    send_and_parse
      (fun _ : BuiltRequest Nat =>
        (Except.ok ⟨404, Except.ok "oops"⟩ : Except Nat (Response Nat)))
      (fun _ : Nat => (Except.ok "q" : Except Nat String)) (fun _ => "j")
      (fun _ => (Except.ok 7 : Except Nat Nat))
      ⟨fun e => e + 100, fun e => e + 200, 999, fun _ => Except.ok 44⟩
      none "http://x" 0 HttpMethod.Get =
      Outcome.returns (Except.error 44) := by
  have h := send_and_parse_non200_err
    (fun _ : BuiltRequest Nat =>
      (Except.ok ⟨404, Except.ok "oops"⟩ : Except Nat (Response Nat)))
    (fun _ : Nat => (Except.ok "q" : Except Nat String)) (fun _ => "j")
    (fun _ => (Except.ok 7 : Except Nat Nat))
    ⟨fun e => e + 100, fun e => e + 200, 999, fun _ => Except.ok 44⟩
    none "http://x" 0 HttpMethod.Get
    ⟨Verb.GET, "http://x", 0, none⟩ ⟨404, Except.ok "oops"⟩ "oops"
    rfl rfl (by decide) rfl
  exact h.1 44 rfl

/-- C3 counterexample: `send_and_parse` called with the `Post` selector and
an absent payload panics (`request.unwrap()` on `None`), refuting the claim
that the functions never panic for any input including an absent payload. -/
theorem send_and_parse_post_none_panics :
    send_and_parse
      (fun _ : BuiltRequest Nat =>
        (Except.ok ⟨200, Except.ok ""⟩ : Except Nat (Response Nat)))
      (fun _ : Nat => (Except.ok "" : Except Nat String)) (fun _ => "")
      (fun _ => (Except.ok 0 : Except Nat Nat))
      ⟨fun _ => 0, fun _ => 1, 2, fun _ => Except.error 0⟩
      none "u" 0 HttpMethod.Post = Outcome.panics := rfl

/-- C3 (amended): whenever the method is `Get` or the payload is present,
`send` and `send_and_parse` never panic: every path, including every
failure path, terminates in a caller-visible `Result` value. -/
theorem no_panic_get_or_payload {τ υ ε σ ρ κ χ η : Type}
    (transport : BuiltRequest η → Except χ (Response ρ))
    (tq : τ → Except κ String) (tj : τ → String)
    (de_u : String → Except σ υ) (err : LeptosReqwestError σ ρ ε)
    (request : Option τ) (url : String) (headers : η) (method : HttpMethod)
    (h : method = HttpMethod.Get ∨ request.isSome = true) :
    (∃ r, send_and_parse transport tq tj de_u err request url headers method =
      .returns r) ∧
    (∃ r, send transport tq tj err request url headers method = .returns r) := by
  have hb : ∃ req, buildRequest tq tj request url headers method = some req := by
    rcases h with h | h
    · subst h; exact ⟨_, rfl⟩
    · obtain ⟨p, rfl⟩ := Option.isSome_iff_exists.mp h
      cases method <;> exact ⟨_, rfl⟩
  obtain ⟨req, hb⟩ := hb
  exact ⟨⟨handleParseResponse de_u err (transport req),
      by simp [send_and_parse, hb]⟩,
    ⟨handleBoolResponse err (transport req), by simp [send, hb]⟩⟩

theorem no_panic_get_or_payload_witness :
    (∃ r, send_and_parse
      (fun _ : BuiltRequest Nat =>
        (Except.ok ⟨200, Except.ok ""⟩ : Except Nat (Response Nat)))
      (fun _ : Nat => (Except.ok "" : Except Nat String)) (fun _ => "")
      (fun _ => (Except.ok 0 : Except Nat Nat))
      ⟨fun _ => 0, fun _ => 1, 2, fun _ => Except.error 0⟩
      none "u" 0 HttpMethod.Get = Outcome.returns r) ∧
    (∃ r, send
      (fun _ : BuiltRequest Nat =>
        (Except.ok ⟨200, Except.ok ""⟩ : Except Nat (Response Nat)))
      (fun _ : Nat => (Except.ok "" : Except Nat String)) (fun _ => "")
      ⟨fun _ => 0, fun _ => 1, 2, fun _ => Except.error 0⟩
      none "u" 0 HttpMethod.Get = Outcome.returns r) :=
  no_panic_get_or_payload _ _ _ _ _ _ _ _ _ (Or.inl rfl)

/-- C4: for every method and input, if the transport fails then both `send`
and `send_and_parse` return the error type's default-constructed value; the
result is the same for every failure cause `c`, so the specific cause is
discarded. -/
theorem transport_failure_default {τ υ ε σ ρ κ χ η : Type}
    (transport : BuiltRequest η → Except χ (Response ρ))
    (tq : τ → Except κ String) (tj : τ → String)
    (de_u : String → Except σ υ) (err : LeptosReqwestError σ ρ ε)
    (request : Option τ) (url : String) (headers : η) (method : HttpMethod)
    (req : BuiltRequest η) (c : χ)
    (hb : buildRequest tq tj request url headers method = some req)
    (ht : transport req = .error c) :
    send_and_parse transport tq tj de_u err request url headers method =
      .returns (.error err.default) ∧
    send transport tq tj err request url headers method =
      .returns (.error err.default) := by
  refine ⟨?_, ?_⟩
  · simp [send_and_parse, hb, handleParseResponse, ht]
  · simp [send, hb, handleBoolResponse, ht]

theorem transport_failure_default_witness :
    send_and_parse
      (fun _ : BuiltRequest Nat =>
        (Except.error 5 : Except Nat (Response Nat)))
      (fun _ : Nat => (Except.ok "" : Except Nat String)) (fun _ => "")
      (fun _ => (Except.ok 0 : Except Nat Nat))
      ⟨fun _ => 0, fun _ => 1, 2, fun _ => Except.error 0⟩
      none "u" 0 HttpMethod.Get = Outcome.returns (Except.error 2) ∧
    send
      (fun _ : BuiltRequest Nat =>
        (Except.error 5 : Except Nat (Response Nat)))
      (fun _ : Nat => (Except.ok "" : Except Nat String)) (fun _ => "")
      ⟨fun _ => 0, fun _ => 1, 2, fun _ => Except.error 0⟩
      none "u" 0 HttpMethod.Get = Outcome.returns (Except.error 2) :=
  transport_failure_default _ _ _ _ _ _ _ _ _
    ⟨Verb.GET, "u", 0, none⟩ 5 rfl rfl

/-- Helper: on a non-200 status, `handleParseResponse` produces exactly the
shared error chain value. -/
theorem handleParseResponse_non200 {υ ε σ ρ χ : Type}
    (de_u : String → Except σ υ) (err : LeptosReqwestError σ ρ ε)
    (res : Response ρ) (hs : res.status ≠ 200) :
    handleParseResponse de_u err (Except.ok res : Except χ (Response ρ)) =
      .error (errorChain err res) := by
  obtain ⟨s, b⟩ := res
  simp only [handleParseResponse, errorChain]
  rw [if_neg hs]
  cases b with
  | ok t => cases hde : err.de t <;> simp [hde]
  | error e => rfl

/-- Helper: on a non-2xx status, `handleBoolResponse` produces exactly the
shared error chain value. -/
theorem handleBoolResponse_non2xx {ε σ ρ χ : Type}
    (err : LeptosReqwestError σ ρ ε) (res : Response ρ)
    (hs : ¬ (200 ≤ res.status ∧ res.status < 300)) :
    handleBoolResponse err (Except.ok res : Except χ (Response ρ)) =
      .error (errorChain err res) := by
  obtain ⟨s, b⟩ := res
  simp only [handleBoolResponse, errorChain]
  rw [if_neg hs]
  cases b with
  | ok t => cases hde : err.de t <;> simp [hde]
  | error e => rfl

/-- C5: for every call to `send`, if the transport succeeds with any 2xx
status, the function returns `Ok(true)` regardless of the body (the body is
never read or parsed: the conclusion holds for an arbitrary text outcome
`b`). -/
theorem send_2xx_ok_true {τ ε σ ρ κ χ η : Type}
    (transport : BuiltRequest η → Except χ (Response ρ))
    (tq : τ → Except κ String) (tj : τ → String)
    (err : LeptosReqwestError σ ρ ε)
    (request : Option τ) (url : String) (headers : η) (method : HttpMethod)
    (req : BuiltRequest η) (s : Nat) (b : Except ρ String)
    (hb : buildRequest tq tj request url headers method = some req)
    (ht : transport req = .ok ⟨s, b⟩)
    (h2 : 200 ≤ s) (h3 : s < 300) :
    send transport tq tj err request url headers method =
      .returns (.ok true) := by
  simp [send, hb, handleBoolResponse, ht, h2, h3]

theorem send_2xx_ok_true_witness :
    send
      (fun _ : BuiltRequest Nat =>
        (Except.ok ⟨204, Except.error 9⟩ : Except Nat (Response Nat)))
      (fun _ : Nat => (Except.ok "" : Except Nat String)) (fun _ => "")
      ⟨fun _ => 0, fun _ => 1, 2, fun _ => Except.error 0⟩
      none "u" 0 HttpMethod.Get = Outcome.returns (Except.ok true) :=
  send_2xx_ok_true _ _ _ _ _ _ _ _
    ⟨Verb.GET, "u", 0, none⟩ 204 (Except.error 9)
    rfl rfl (by decide) (by decide)

/-- C6: for every non-2xx response, `send` produces exactly the same error
value as `send_and_parse`: both return `Err` of the shared chain that
deserializes the body into the error type, falls back to the
deserialization-error constructor, and maps a text read failure to the
read-error constructor. -/
theorem send_and_send_and_parse_same_error_non2xx {τ υ ε σ ρ κ χ η : Type}
    (transport : BuiltRequest η → Except χ (Response ρ))
    (tq : τ → Except κ String) (tj : τ → String)
    (de_u : String → Except σ υ) (err : LeptosReqwestError σ ρ ε)
    (request : Option τ) (url : String) (headers : η) (method : HttpMethod)
    (req : BuiltRequest η) (res : Response ρ)
    (hb : buildRequest tq tj request url headers method = some req)
    (ht : transport req = .ok res)
    (hs : ¬ (200 ≤ res.status ∧ res.status < 300)) :
    send transport tq tj err request url headers method =
      .returns (.error (errorChain err res)) ∧
    send_and_parse transport tq tj de_u err request url headers method =
      .returns (.error (errorChain err res)) := by
  have h200 : res.status ≠ 200 := by
    intro h
    exact hs (by omega)
  refine ⟨?_, ?_⟩
  · rw [send, hb]
    simp only [ht, handleBoolResponse_non2xx err res hs]
  · rw [send_and_parse, hb]
    simp only [ht, handleParseResponse_non200 de_u err res h200]

theorem send_and_send_and_parse_same_error_non2xx_witness :
    send
      (fun _ : BuiltRequest Nat =>
        (Except.ok ⟨500, Except.ok "bad"⟩ : Except Nat (Response Nat)))
      (fun _ : Nat => (Except.ok "" : Except Nat String)) (fun _ => "")
      ⟨fun _ => 0, fun _ => 1, 2, fun _ => (Except.ok 33 : Except Nat Nat)⟩
      none "u" 0 HttpMethod.Get = Outcome.returns (Except.error 33) ∧
    send_and_parse
      (fun _ : BuiltRequest Nat =>
        (Except.ok ⟨500, Except.ok "bad"⟩ : Except Nat (Response Nat)))
      (fun _ : Nat => (Except.ok "" : Except Nat String)) (fun _ => "")
      (fun _ => (Except.ok 0 : Except Nat Nat))
      ⟨fun _ => 0, fun _ => 1, 2, fun _ => (Except.ok 33 : Except Nat Nat)⟩
      none "u" 0 HttpMethod.Get = Outcome.returns (Except.error 33) :=
  send_and_send_and_parse_same_error_non2xx _ _ _ _ _ _ _ _ _
    ⟨Verb.GET, "u", 0, none⟩ ⟨500, Except.ok "bad"⟩
    rfl rfl (by decide)

/-- C7: for the `Get` selector in both `send_and_parse` and `send`: with no
payload the request targets the exact given url with no query string; with
a payload whose query-string encoding succeeds it targets
`url ++ "?" ++ encoded`; and if encoding fails it silently targets the bare
url unchanged. -/
theorem get_url_construction {τ υ ε σ ρ κ χ η : Type}
    (transport : BuiltRequest η → Except χ (Response ρ))
    (tq : τ → Except κ String) (tj : τ → String)
    (de_u : String → Except σ υ) (err : LeptosReqwestError σ ρ ε)
    (url : String) (headers : η) (p p' : τ) (q : String) (k : κ)
    (hq : tq p = .ok q) (hk : tq p' = .error k) :
    buildRequest tq tj (none : Option τ) url headers HttpMethod.Get =
      some ⟨Verb.GET, url, headers, none⟩ ∧
    buildRequest tq tj (some p) url headers HttpMethod.Get =
      some ⟨Verb.GET, url ++ "?" ++ q, headers, none⟩ ∧
    buildRequest tq tj (some p') url headers HttpMethod.Get =
      some ⟨Verb.GET, url, headers, none⟩ ∧
    send_and_parse transport tq tj de_u err none url headers HttpMethod.Get =
      .returns (handleParseResponse de_u err
        (transport ⟨Verb.GET, url, headers, none⟩)) ∧
    send_and_parse transport tq tj de_u err (some p) url headers
        HttpMethod.Get =
      .returns (handleParseResponse de_u err
        (transport ⟨Verb.GET, url ++ "?" ++ q, headers, none⟩)) ∧
    send_and_parse transport tq tj de_u err (some p') url headers
        HttpMethod.Get =
      .returns (handleParseResponse de_u err
        (transport ⟨Verb.GET, url, headers, none⟩)) ∧
    send transport tq tj err none url headers HttpMethod.Get =
      .returns (handleBoolResponse err
        (transport ⟨Verb.GET, url, headers, none⟩)) ∧
    send transport tq tj err (some p) url headers HttpMethod.Get =
      .returns (handleBoolResponse err
        (transport ⟨Verb.GET, url ++ "?" ++ q, headers, none⟩)) ∧
    send transport tq tj err (some p') url headers HttpMethod.Get =
      .returns (handleBoolResponse err
        (transport ⟨Verb.GET, url, headers, none⟩)) := by
  refine ⟨?_, ?_, ?_, ?_, ?_, ?_, ?_, ?_, ?_⟩ <;>
    simp [buildRequest, send_and_parse, send, hq, hk]

theorem get_url_construction_witness :
    send_and_parse
      (fun r : BuiltRequest Nat =>
        (Except.ok ⟨200, Except.ok r.url⟩ : Except Nat (Response Nat)))
      (fun n : Nat =>
        (if n = 0 then Except.error 5 else Except.ok "a=1" :
          Except Nat String))
      (fun _ => "") (fun t => (Except.ok t : Except Nat String))
      ⟨fun _ => "d", fun _ => "r", "z", fun _ => Except.error 0⟩
      (some 1) "u" 0 HttpMethod.Get =
      Outcome.returns (Except.ok ("u" ++ "?" ++ "a=1")) := by
  have h := get_url_construction
    (fun r : BuiltRequest Nat =>
      (Except.ok ⟨200, Except.ok r.url⟩ : Except Nat (Response Nat)))
    (fun n : Nat =>
      (if n = 0 then Except.error 5 else Except.ok "a=1" :
        Except Nat String))
    (fun _ => "") (fun t => (Except.ok t : Except Nat String))
    ⟨fun _ => "d", fun _ => "r", "z", fun _ => Except.error 0⟩
    "u" 0 1 0 "a=1" 5 rfl rfl
  rw [h.2.2.2.2.1]
  rfl

/-- C8: for every call to `send_and_parse` whose transport succeeds with
status exactly 200: if the body cannot be read as text the result is the
read-error constructor applied to the read failure, and if the body reads
but fails to deserialize into the success type the result is the
deserialization-error constructor; in both cases the call returns instead
of panicking. -/
theorem send_and_parse_200_fallbacks {τ υ ε σ ρ κ χ η : Type}
    (transport : BuiltRequest η → Except χ (Response ρ))
    (tq : τ → Except κ String) (tj : τ → String)
    (de_u : String → Except σ υ) (err : LeptosReqwestError σ ρ ε)
    (request : Option τ) (url : String) (headers : η) (method : HttpMethod)
    (req : BuiltRequest η) (b : Except ρ String)
    (hb : buildRequest tq tj request url headers method = some req)
    (ht : transport req = .ok ⟨200, b⟩) :
    (∀ e, b = .error e →
      send_and_parse transport tq tj de_u err request url headers method =
        .returns (.error (err.read_error e))) ∧
    (∀ t k, b = .ok t → de_u t = .error k →
      send_and_parse transport tq tj de_u err request url headers method =
        .returns (.error (err.deserialization_error k))) := by
  constructor
  · intro e he
    subst he
    simp [send_and_parse, hb, handleParseResponse, ht]
  · intro t k hbt hk
    subst hbt
    simp [send_and_parse, hb, handleParseResponse, ht, hk]

theorem send_and_parse_200_fallbacks_witness :
    send_and_parse
      (fun _ : BuiltRequest Nat =>
        (Except.ok ⟨200, Except.error 9⟩ : Except Nat (Response Nat)))
      (fun _ : Nat => (Except.ok "" : Except Nat String)) (fun _ => "")
      (fun _ => (Except.ok 0 : Except Nat Nat))
      ⟨fun e => e + 100, fun e => e + 200, 999, fun _ => Except.error 0⟩
      none "u" 0 HttpMethod.Get = Outcome.returns (Except.error 209) := by
  have h := send_and_parse_200_fallbacks
    (fun _ : BuiltRequest Nat =>
      (Except.ok ⟨200, Except.error 9⟩ : Except Nat (Response Nat)))
    (fun _ : Nat => (Except.ok "" : Except Nat String)) (fun _ => "")
    (fun _ => (Except.ok 0 : Except Nat Nat))
    ⟨fun e => e + 100, fun e => e + 200, 999, fun _ => Except.error 0⟩
    none "u" 0 HttpMethod.Get
    ⟨Verb.GET, "u", 0, none⟩ (Except.error 9) rfl rfl
  exact h.1 9 rfl

/-- C9: for every call to `send` or `send_and_parse` with the `Put`
selector and a present payload, the outgoing request uses the `PATCH` verb
(not `PUT`), carries the given headers, and has the JSON-encoded payload as
its body. -/
theorem put_sends_patch {τ υ ε σ ρ κ χ η : Type}
    (transport : BuiltRequest η → Except χ (Response ρ))
    (tq : τ → Except κ String) (tj : τ → String)
    (de_u : String → Except σ υ) (err : LeptosReqwestError σ ρ ε)
    (url : String) (headers : η) (p : τ) :
    Verb.PATCH ≠ Verb.PUT ∧
    buildRequest tq tj (some p) url headers HttpMethod.Put =
      some ⟨Verb.PATCH, url, headers, some (tj p)⟩ ∧
    send_and_parse transport tq tj de_u err (some p) url headers
        HttpMethod.Put =
      .returns (handleParseResponse de_u err
        (transport ⟨Verb.PATCH, url, headers, some (tj p)⟩)) ∧
    send transport tq tj err (some p) url headers HttpMethod.Put =
      .returns (handleBoolResponse err
        (transport ⟨Verb.PATCH, url, headers, some (tj p)⟩)) :=
  ⟨by decide, rfl, rfl, rfl⟩

/-- C10: `send` and `send_and_parse` disagree on 2xx statuses other than
200: `send` returns `Ok(true)` while `send_and_parse` takes the error
path, deserializing the body into the error type through the shared error
chain and returning an `Err` value. -/
theorem send_true_parse_err_on_2xx_non200 {τ υ ε σ ρ κ χ η : Type}
    (transport : BuiltRequest η → Except χ (Response ρ))
    (tq : τ → Except κ String) (tj : τ → String)
    (de_u : String → Except σ υ) (err : LeptosReqwestError σ ρ ε)
    (request : Option τ) (url : String) (headers : η) (method : HttpMethod)
    (req : BuiltRequest η) (s : Nat) (b : Except ρ String)
    (hb : buildRequest tq tj request url headers method = some req)
    (ht : transport req = .ok ⟨s, b⟩)
    (h2 : 200 ≤ s) (h3 : s < 300) (hne : s ≠ 200) :
    send transport tq tj err request url headers method =
      .returns (.ok true) ∧
    send_and_parse transport tq tj de_u err request url headers method =
      .returns (.error (errorChain err ⟨s, b⟩)) := by
  refine ⟨?_, ?_⟩
  · simp [send, hb, handleBoolResponse, ht, h2, h3]
  · rw [send_and_parse, hb]
    simp only [ht, handleParseResponse_non200 de_u err ⟨s, b⟩ hne]

theorem send_true_parse_err_on_2xx_non200_witness :
    send
      (fun _ : BuiltRequest Nat =>
        (Except.ok ⟨201, Except.ok "e"⟩ : Except Nat (Response Nat)))
      (fun _ : Nat => (Except.ok "" : Except Nat String)) (fun _ => "")
      ⟨fun _ => 0, fun _ => 1, 2, fun _ => (Except.ok 33 : Except Nat Nat)⟩
      none "u" 0 HttpMethod.Get = Outcome.returns (Except.ok true) ∧
    send_and_parse
      (fun _ : BuiltRequest Nat =>
        (Except.ok ⟨201, Except.ok "e"⟩ : Except Nat (Response Nat)))
      (fun _ : Nat => (Except.ok "" : Except Nat String)) (fun _ => "")
      (fun _ => (Except.ok 0 : Except Nat Nat))
      ⟨fun _ => 0, fun _ => 1, 2, fun _ => (Except.ok 33 : Except Nat Nat)⟩
      none "u" 0 HttpMethod.Get = Outcome.returns (Except.error 33) := by
  exact send_true_parse_err_on_2xx_non200 _ _ _ _ _ _ _ _ _
    ⟨Verb.GET, "u", 0, none⟩ 201 (Except.ok "e")
    rfl rfl (by decide) (by decide) (by decide)
